import Mathlib

/-!
# Shallow embedding of the `render` template renderer (package `renderer`)

This file embeds `src/renderer/render.go` in Lean 4 and proves the claims
about it.  Go error values become the inductive `Err`; a Go function
returning `(T, error)` becomes a Lean function returning `T × Option Err`
(or `Except Err T` where the success value is unusable on error).

External collaborators that live outside `src/` are modelled explicitly:
the configuration package as a structure carrying its self-validation
result, the `text/template` engine and the sprig function library as an
`Engine` record of oracles supplied to each operation, and the `files`
package as a `FileSys` record of oracles.  `FileRender` additionally
returns the trace of `WriteOutput` calls it made, so that claims about
what gets written (and what never gets written) are statable.
-/

/-- Go error values as produced by this package: `errors.New`/`errors.Errorf`
messages, the `text/template` `ExecError` (which carries the template name and
an underlying error), and `errors.Wrapf` wrapping (context plus cause). -/
inductive Err where
  | msg (s : String)
  | execError (templateName : String) (inner : Err)
  | wrap (context : String) (inner : Err)
deriving Repr, DecidableEq

/-- The human-readable message of an error: `errors.Wrap` renders as
`context: cause`, and `template.ExecError.Error()` returns the message of the
underlying error. -/
def Err.message : Err → String
  | .msg s => s
  | .execError _ inner => inner.message
  | .wrap context inner => context ++ ": " ++ inner.message

/-- Modelled from the spec: the configuration collaborator
(`renderer/configuration`, not under `src/`) is a self-validating data root,
exposing `Validate() -> Result<(), Error>`.  `validateErr` is the outcome of
that self-validation; `data` stands for the structured values the template is
evaluated against. -/
structure Configuration where
  validateErr : Option Err
  data : List (String × String)
deriving Repr, DecidableEq

/-- `MissingKeyInvalidOption`: continue execution on missing key and print a
placeholder. -/
def MissingKeyInvalidOption : String := "missingkey=invalid"

/-- `MissingKeyErrorOption`: stop execution immediately with an error on a
missing key. -/
def MissingKeyErrorOption : String := "missingkey=error"

/-- `LeftDelim` is the default left template delimiter. -/
def LeftDelim : String := "\x7b\x7b"

/-- `RightDelim` is the default right template delimiter. -/
def RightDelim : String := "\x7d\x7d"

/-- The `Renderer` structure holds configuration and options.  The Go field
`configuration configuration.Configuration` holds an interface value that may
be `nil`, hence `Option Configuration`. -/
structure Renderer where
  configuration : Option Configuration
  options : List String
  leftDelim : String
  rightDelim : String
deriving Repr, DecidableEq

/-- `New` creates a new renderer with the specified configuration and zero or
more options; delimiters default to `LeftDelim`/`RightDelim`. -/
def New (configuration : Option Configuration) (opts : List String) : Renderer :=
  { configuration := configuration
    options := opts
    leftDelim := LeftDelim
    rightDelim := RightDelim }

/-- `Delim` mutates the Renderer with new left and right delimiters and
returns it for chaining. -/
def Renderer.Delim (r : Renderer) (left right : String) : Renderer :=
  { r with leftDelim := left, rightDelim := right }

/-- The loop body of `Renderer.Validate` over `r.options`: each option must be
one of the two recognized literals; the first unrecognized option yields the
`unexpected option` error. -/
def validateOptions : List String → Option Err
  | [] => none
  | o :: rest =>
    if o = MissingKeyErrorOption then validateOptions rest
    else if o = MissingKeyInvalidOption then validateOptions rest
    else some (.msg ("unexpected option: \x27" ++ o ++ "\x27, option must be in: \x27" ++
      MissingKeyInvalidOption ++ ", " ++ MissingKeyErrorOption ++ "\x27"))

/-- `Validate` checks the internal state and returns an error if necessary:
a `nil` configuration, a failing configuration self-validation, an empty
delimiter, or an unrecognized option. -/
def Renderer.Validate (r : Renderer) : Option Err :=
  match r.configuration with
  | some c =>
    match c.validateErr with
    | some err => some err
    | none =>
      if r.leftDelim.length = 0 then some (.msg "unexpected empty leftDelim")
      else if r.rightDelim.length = 0 then some (.msg "unexpected empty rightDelim")
      else validateOptions r.options
  | none => some (.msg "unexpected \x27nil\x27 configuration")

/-- A parsed template: named, immutable once parsed.  The engine's parse
oracle produces it; its contents are opaque to the renderer. -/
structure Template where
  name : String
  body : String
deriving Repr, DecidableEq

/-- A value of the function table.  The five custom entries are
distinguished constructors — `simpleRender` and `readFile` close over the
owning Renderer — and `generic` stands for an entry of the sprig helper
library. -/
inductive Func where
  | simpleRender (r : Renderer)
  | readFile (r : Renderer)
  | toYaml
  | ungzip
  | gzip
  | generic (name : String)
deriving Repr, DecidableEq

/-- A function table: a Go `template.FuncMap`, observed through name lookup. -/
def FuncMap : Type := List (String × Func)

/-- Lookup of a name in a function table. -/
def FuncMap.find : FuncMap → String → Option Func
  | [], _ => none
  | (k, v) :: rest, n => if k = n then some v else FuncMap.find rest n

/-- Go map assignment `m[k] = v`: the new binding replaces any existing
binding of the same key. -/
def FuncMap.insert (m : FuncMap) (k : String) (v : Func) : FuncMap :=
  (k, v) :: m.filter (fun p => p.1 != k)

/-- Modelled from the spec: the external collaborators of a render call that
are not under `src/` — the sprig generic helper library (`sprig.TxtFuncMap`)
and the `text/template` engine (`Parse` chained from `template.New`, and
`Template.Execute` writing to a buffer). -/
structure Engine where
  sprig : FuncMap
  parse : String → String → String → List String → FuncMap → String → Except Err Template
  exec : Template → Option Configuration → String × Option Err

/-- `ExtraFunctions` provides additional template functions: the sprig
table overlaid with the five custom entries `render`, `readFile`, `toYaml`,
`ungzip`, `gzip`, in the source's assignment order. -/
def Renderer.ExtraFunctions (sprig : FuncMap) (r : Renderer) : FuncMap :=
  ((((sprig.insert "render" (.simpleRender r)).insert
      "readFile" (.readFile r)).insert
      "toYaml" .toYaml).insert
      "ungzip" .ungzip).insert
      "gzip" .gzip

/-- `Parse` is a basic template parsing function:
`template.New(name).Delims(l, r).Funcs(fns).Option(opts...).Parse(raw)`. -/
def Renderer.Parse (eng : Engine) (r : Renderer) (templateName rawTemplate : String)
    (extraFunctions : FuncMap) : Except Err Template :=
  eng.parse templateName r.leftDelim r.rightDelim r.options extraFunctions rawTemplate

/-- `Execute` is a basic template execution function: it evaluates the
template against the stored configuration into an in-memory buffer; on an
`ExecError` it wraps the error with the template's name, and on success it
returns the buffer contents. -/
def Renderer.Execute (eng : Engine) (r : Renderer) (t : Template) : String × Option Err :=
  match eng.exec t r.configuration with
  | (_, some err) =>
    let retErr : Err :=
      match err with
      | .execError name _ =>
        .wrap ("Error evaluating the template named: \x27" ++ name ++ "\x27") err
      | _ => err
    ("", some retErr)
  | (buffer, none) => (buffer, none)

/-- `Render` is the main rendering function: Validate, then Parse with the
table from `ExtraFunctions`, then Execute, returning the first error with an
empty string. -/
def Renderer.Render (eng : Engine) (r : Renderer) (templateName rawTemplate : String) :
    String × Option Err :=
  match r.Validate with
  | some err => ("", some err)
  | none =>
    match Renderer.Parse eng r templateName rawTemplate (Renderer.ExtraFunctions eng.sprig r) with
    | .error err => ("", some err)
    | .ok t =>
      match Renderer.Execute eng r t with
      | (_, some err) => ("", some err)
      | (out, none) => (out, none)

/-- `SimpleRender` is a simple rendering function, also used as the custom
template function `render`: it renders under the name `nameless`. -/
def Renderer.SimpleRender (eng : Engine) (r : Renderer) (rawTemplate : String) :
    String × Option Err :=
  Renderer.Render eng r "nameless" rawTemplate

/-- Modelled from the spec: the `files` collaborator (not under `src/`) —
`ReadInput(path) -> (bytes, error)` with the empty path meaning standard
input, and `WriteOutput(path, bytes, mode) -> error` with the empty path
meaning standard output. -/
structure FileSys where
  readInput : String → String × Option Err
  writeOutput : String → String → Nat → Option Err

/-- `FileRender` renders a file by path: read the input, derive the template
name (`stdin` for the empty input path, the path itself otherwise), render,
and write the result with mode `0644`.  The second component is the trace of
`WriteOutput` calls performed, so that claims about writes are observable. -/
def Renderer.FileRender (eng : Engine) (fs : FileSys) (r : Renderer)
    (inputPath outputPath : String) : Option Err × List (String × String × Nat) :=
  match fs.readInput inputPath with
  | (_, some err) => (some err, [])
  | (input, none) =>
    let templateName := if inputPath = "" then "stdin" else inputPath
    match Renderer.Render eng r templateName input with
    | (_, some err) => (some err, [])
    | (result, none) =>
      match fs.writeOutput outputPath result 0o644 with
      | some err => (some err, [(outputPath, result, 0o644)])
      | none => (none, [(outputPath, result, 0o644)])

/-- Modelled from the spec: the missing-key lookup failure the
`text/template` engine raises under the fail option — an `ExecError` naming
the template, whose underlying message names the missing key and its source
position in the form `templateName:line:column`. -/
def missingKeyErr (templateName : String) (line column : Nat) (key : String) : Err :=
  .execError templateName (.msg
    ("template: " ++ templateName ++ ":" ++ toString line ++ ":" ++ toString column ++
      ": executing \x22" ++ templateName ++ "\x22 at <." ++ key ++
      ">: map has no entry for key \x22" ++ key ++ "\x22"))

/-- Modelled from the spec: `Gzip`/`Ungzip` (defined outside `src/`) are a
symmetric in-memory compress/decompress pair on text.  The compressed form is
modelled as run-length-coded character runs. -/
def rlEncode : List Char → List (Nat × Char)
  | [] => []
  | c :: rest =>
    match rlEncode rest with
    | (n, d) :: t => if c = d then (n + 1, d) :: t else (1, c) :: (n, d) :: t
    | [] => [(1, c)]

/-- Modelled from the spec: the decompression direction of the symmetric
pair — expand each run back into characters. -/
def rlDecode : List (Nat × Char) → List Char
  | [] => []
  | (n, c) :: t => List.replicate n c ++ rlDecode t

/-- Modelled from the spec: the `gzip` custom template function, compressing
text into bytes (here: run-length-coded runs). -/
def Gzip (input : String) : List (Nat × Char) :=
  rlEncode input.data

/-- Modelled from the spec: the `ungzip` custom template function,
the extraction inverse of `Gzip`. -/
def Ungzip (compressed : List (Nat × Char)) : String :=
  ⟨rlDecode compressed⟩

/-- A sample configuration that passes its self-validation, for witnesses. -/
def sampleConfig : Configuration := { validateErr := none, data := [("something", "test")] }

/-- A sample renderer in a valid state, for witnesses. -/
def sampleRenderer : Renderer := New (some sampleConfig) []

/-- A sample engine whose parse and exec oracles succeed, for witnesses. -/
def sampleEngine : Engine :=
  { sprig := [("upper", .generic "upper")]
    parse := fun name _ _ _ _ raw => .ok { name := name, body := raw }
    exec := fun t _ => (t.body, none) }

/-- A sample file system oracle whose reads and writes succeed, for
witnesses. -/
def sampleFs : FileSys :=
  { readInput := fun _ => ("body", none)
    writeOutput := fun _ _ _ => none }

/-- A sample engine whose execution fails with a missing-key `ExecError`,
for witnesses. -/
def sampleFailEngine : Engine :=
  { sprig := []
    parse := fun name _ _ _ _ raw => .ok { name := name, body := raw }
    exec := fun t _ => ("", some (missingKeyErr t.name 1 3 "missing")) }

/-- A sample file system oracle whose reads fail, for witnesses. -/
def sampleFailFs : FileSys :=
  { readInput := fun _ => ("", some (.msg "read failed"))
    writeOutput := fun _ _ _ => none }

/-! ## Helper lemmas -/

theorem string_length_eq_zero (s : String) : s.length = 0 ↔ s = "" := by
  cases s with
  | mk data => simp [String.length, String.ext_iff]

theorem validateOptions_eq_none (l : List String) :
    validateOptions l = none ↔
      ∀ o ∈ l, o = MissingKeyErrorOption ∨ o = MissingKeyInvalidOption := by
  induction l with
  | nil => simp [validateOptions]
  | cons o rest ih =>
    by_cases h1 : o = MissingKeyErrorOption
    · simp [validateOptions, h1, ih]
    · by_cases h2 : o = MissingKeyInvalidOption
      · simp [validateOptions, h1, h2, ih]
      · simp [validateOptions, h1, h2]

theorem funcMap_find_filter (m : FuncMap) (k n : String) (h : k ≠ n) :
    FuncMap.find (m.filter (fun p => p.1 != k)) n = m.find n := by
  induction m with
  | nil => rfl
  | cons p rest ih =>
    obtain ⟨k2, v⟩ := p
    by_cases h2 : k2 = k
    · subst h2
      have hkn : k2 ≠ n := h
      simp [FuncMap.find, hkn, ih]
    · have hb : (k2 != k) = true := by simp [h2]
      simp only [List.filter_cons, hb, if_true]
      by_cases h3 : k2 = n
      · simp [FuncMap.find, h3]
      · simp [FuncMap.find, h3, ih]

theorem funcMap_find_insert (m : FuncMap) (k n : String) (v : Func) :
    (m.insert k v).find n = if k = n then some v else m.find n := by
  by_cases h : k = n
  · simp [FuncMap.insert, FuncMap.find, h]
  · simp [FuncMap.insert, FuncMap.find, h, funcMap_find_filter m k n h]

theorem rlDecode_rlEncode (l : List Char) : rlDecode (rlEncode l) = l := by
  induction l with
  | nil => rfl
  | cons c rest ih =>
    simp only [rlEncode]
    cases h : rlEncode rest with
    | nil =>
      rw [h] at ih
      simp only [rlDecode] at ih
      simp [rlDecode, ih]
    | cons p t =>
      obtain ⟨n, d⟩ := p
      rw [h] at ih
      by_cases hc : c = d
      · subst hc
        simp only [if_pos rfl, rlDecode, List.replicate_succ, List.cons_append]
        simp only [rlDecode] at ih
        rw [ih]
      · simp only [if_neg hc, rlDecode, List.replicate_one, List.singleton_append]
        simp only [rlDecode] at ih
        rw [ih]

/-! ## Claim theorems -/

/-- Claim C8: for all text `x`, `Ungzip (Gzip x) = x` — the gzip and ungzip
custom template functions are a round-trip pair on every input string. -/
theorem gzip_ungzip_roundtrip (x : String) : Ungzip (Gzip x) = x := by
  unfold Ungzip Gzip
  rw [rlDecode_rlEncode]

/-- Claim C9: `New` stores the given configuration and options and defaults
the delimiters to the two-brace pairs, and `Delim` replaces exactly the two
delimiter fields with the given strings (no validation, empty strings
included) and returns the resulting renderer for chaining. -/
theorem new_delim_spec (c : Option Configuration) (opts : List String)
    (r : Renderer) (l rt : String) :
    New c opts = { configuration := c, options := opts,
                   leftDelim := "\x7b\x7b", rightDelim := "\x7d\x7d" } ∧
    Renderer.Delim r l rt = { r with leftDelim := l, rightDelim := rt } ∧
    (Renderer.Delim r "" "").leftDelim = "" ∧
    (Renderer.Delim r "" "").rightDelim = "" :=
  ⟨rfl, rfl, rfl, rfl⟩

/-- Claim C6: `SimpleRender text` returns exactly the same result as
`Render "nameless" text`, for every engine, renderer and text. -/
theorem simpleRender_eq_render_nameless (eng : Engine) (r : Renderer) (text : String) :
    Renderer.SimpleRender eng r text = Renderer.Render eng r "nameless" text := rfl

/-- Claim C3 counterexample: a renderer constructed with both recognized
option literals at once passes `Validate` — the two literals are not
mutually exclusive in validation, refuting the claim that `Validate`
rejects such a renderer. -/
theorem validate_accepts_both_options :
    Renderer.Validate
      (New (some sampleConfig) [MissingKeyErrorOption, MissingKeyInvalidOption]) = none := by
  decide

/-- Claim C3 (amended): an options list may contain both recognized literals
at once; `Validate` accepts any renderer whose configuration self-validates,
whose delimiters are non-empty, and whose options are each (individually)
one of the two literals — in particular the list containing both. -/
theorem validate_both_options_ok (r : Renderer) (c : Configuration)
    (hc : r.configuration = some c) (hv : c.validateErr = none)
    (hl : r.leftDelim ≠ "") (hr : r.rightDelim ≠ "")
    (ho : r.options = [MissingKeyErrorOption, MissingKeyInvalidOption]) :
    Renderer.Validate r = none := by
  have hl0 : ¬ r.leftDelim.length = 0 := fun h => hl ((string_length_eq_zero _).mp h)
  have hr0 : ¬ r.rightDelim.length = 0 := fun h => hr ((string_length_eq_zero _).mp h)
  simp [Renderer.Validate, hc, hv, hl0, hr0, ho, validateOptions]

/-- Claim C3 (amended) witness. -/
theorem validate_both_options_ok_witness :
    Renderer.Validate
      (New (some sampleConfig) [MissingKeyErrorOption, MissingKeyInvalidOption]) = none :=
  validate_both_options_ok _ sampleConfig rfl rfl
    (by decide) (by decide) rfl

/-- Claim C5: the table built by `ExtraFunctions` maps each of the five
custom names `render`, `readFile`, `toYaml`, `ungzip`, `gzip` to its custom
entry — overriding any same-named sprig entry — with `render` bound to the
owning renderer's `SimpleRender` closure, and every other name resolves to
the generic sprig table unchanged. -/
theorem extraFunctions_find (sprig : FuncMap) (r : Renderer) (n : String) :
    (Renderer.ExtraFunctions sprig r).find n =
      if n = "render" then some (.simpleRender r)
      else if n = "readFile" then some (.readFile r)
      else if n = "toYaml" then some .toYaml
      else if n = "ungzip" then some .ungzip
      else if n = "gzip" then some .gzip
      else sprig.find n := by
  by_cases h1 : n = "render"
  · subst h1; simp [Renderer.ExtraFunctions, funcMap_find_insert]
  · by_cases h2 : n = "readFile"
    · subst h2; simp [Renderer.ExtraFunctions, funcMap_find_insert]
    · by_cases h3 : n = "toYaml"
      · subst h3; simp [Renderer.ExtraFunctions, funcMap_find_insert]
      · by_cases h4 : n = "ungzip"
        · subst h4; simp [Renderer.ExtraFunctions, funcMap_find_insert]
        · by_cases h5 : n = "gzip"
          · subst h5; simp [Renderer.ExtraFunctions, funcMap_find_insert]
          · simp [Renderer.ExtraFunctions, funcMap_find_insert,
              h1, h2, h3, h4, h5, Ne.symm h1, Ne.symm h2, Ne.symm h3, Ne.symm h4, Ne.symm h5]

/-- Claim C2: `Validate` succeeds iff the configuration is present and
self-validates, both delimiters are non-empty, and every option is one of
the two recognized literals; moreover the first failing check in source
order (configuration presence, configuration self-validation, left
delimiter, right delimiter, options scan) determines the returned error. -/
theorem validate_characterization (r : Renderer) :
    (Renderer.Validate r = none ↔
      (∃ c, r.configuration = some c ∧ c.validateErr = none) ∧
      r.leftDelim ≠ "" ∧ r.rightDelim ≠ "" ∧
      ∀ o ∈ r.options, o = MissingKeyErrorOption ∨ o = MissingKeyInvalidOption) ∧
    (r.configuration = none →
      Renderer.Validate r = some (.msg "unexpected \x27nil\x27 configuration")) ∧
    (∀ c e, r.configuration = some c → c.validateErr = some e →
      Renderer.Validate r = some e) ∧
    (∀ c, r.configuration = some c → c.validateErr = none → r.leftDelim = "" →
      Renderer.Validate r = some (.msg "unexpected empty leftDelim")) ∧
    (∀ c, r.configuration = some c → c.validateErr = none →
      r.leftDelim ≠ "" → r.rightDelim = "" →
      Renderer.Validate r = some (.msg "unexpected empty rightDelim")) ∧
    (∀ c, r.configuration = some c → c.validateErr = none →
      r.leftDelim ≠ "" → r.rightDelim ≠ "" →
      Renderer.Validate r = validateOptions r.options) := by
  refine ⟨?_, ?_, ?_, ?_, ?_, ?_⟩
  · constructor
    · intro h
      match hc : r.configuration with
      | none => simp [Renderer.Validate, hc] at h
      | some c =>
        match hv : c.validateErr with
        | some e => simp [Renderer.Validate, hc, hv] at h
        | none =>
          by_cases hl : r.leftDelim.length = 0
          · simp [Renderer.Validate, hc, hv, hl] at h
          · by_cases hr : r.rightDelim.length = 0
            · simp [Renderer.Validate, hc, hv, hl, hr] at h
            · refine ⟨⟨c, hc ▸ rfl, hv⟩, ?_, ?_, ?_⟩
              · exact fun he => hl ((string_length_eq_zero _).mpr he)
              · exact fun he => hr ((string_length_eq_zero _).mpr he)
              · have : Renderer.Validate r = validateOptions r.options := by
                  simp [Renderer.Validate, hc, hv, hl, hr]
                rw [this] at h
                exact (validateOptions_eq_none r.options).mp h
    · rintro ⟨⟨c, hc, hv⟩, hl, hr, ho⟩
      have hl0 : ¬ r.leftDelim.length = 0 := fun h => hl ((string_length_eq_zero _).mp h)
      have hr0 : ¬ r.rightDelim.length = 0 := fun h => hr ((string_length_eq_zero _).mp h)
      simp [Renderer.Validate, hc, hv, hl0, hr0, (validateOptions_eq_none r.options).mpr ho]
  · intro hc; simp [Renderer.Validate, hc]
  · intro c e hc hv; simp [Renderer.Validate, hc, hv]
  · intro c hc hv hl
    have hl0 : r.leftDelim.length = 0 := (string_length_eq_zero _).mpr hl
    simp [Renderer.Validate, hc, hv, hl0]
  · intro c hc hv hl hr
    have hl0 : ¬ r.leftDelim.length = 0 := fun h => hl ((string_length_eq_zero _).mp h)
    have hr0 : r.rightDelim.length = 0 := (string_length_eq_zero _).mpr hr
    simp [Renderer.Validate, hc, hv, hl0, hr0]
  · intro c hc hv hl hr
    have hl0 : ¬ r.leftDelim.length = 0 := fun h => hl ((string_length_eq_zero _).mp h)
    have hr0 : ¬ r.rightDelim.length = 0 := fun h => hr ((string_length_eq_zero _).mp h)
    simp [Renderer.Validate, hc, hv, hl0, hr0]

/-- Claim C2 witness: at a concrete renderer with a `nil` configuration,
`Validate` returns the `nil` configuration error, by the characterization. -/
theorem validate_characterization_witness :
    Renderer.Validate (New none []) = some (.msg "unexpected \x27nil\x27 configuration") :=
  (validate_characterization (New none [])).2.1 rfl

/-- Claim C1: `Render` runs `Validate`, then `Parse` with the table from
`ExtraFunctions`, then `Execute`, in that order, short-circuiting: it
returns the first error with an empty result string, returns the executed
output only when all three stages succeed, and never returns partial output
together with an error. -/
theorem render_pipeline (eng : Engine) (r : Renderer) (name raw : String) :
    (∀ e, r.Validate = some e → Renderer.Render eng r name raw = ("", some e)) ∧
    (∀ e, r.Validate = none →
      Renderer.Parse eng r name raw (Renderer.ExtraFunctions eng.sprig r) = .error e →
      Renderer.Render eng r name raw = ("", some e)) ∧
    (∀ t out e, r.Validate = none →
      Renderer.Parse eng r name raw (Renderer.ExtraFunctions eng.sprig r) = .ok t →
      Renderer.Execute eng r t = (out, some e) →
      Renderer.Render eng r name raw = ("", some e)) ∧
    (∀ t out, r.Validate = none →
      Renderer.Parse eng r name raw (Renderer.ExtraFunctions eng.sprig r) = .ok t →
      Renderer.Execute eng r t = (out, none) →
      Renderer.Render eng r name raw = (out, none)) ∧
    (∀ out e, Renderer.Render eng r name raw = (out, some e) → out = "") := by
  refine ⟨?_, ?_, ?_, ?_, ?_⟩
  · intro e hv; simp [Renderer.Render, hv]
  · intro e hv hp; simp [Renderer.Render, hv, hp]
  · intro t out e hv hp hx; simp [Renderer.Render, hv, hp, hx]
  · intro t out hv hp hx; simp [Renderer.Render, hv, hp, hx]
  · intro out e h
    rcases hv : r.Validate with _ | e2
    · rcases hp : Renderer.Parse eng r name raw (Renderer.ExtraFunctions eng.sprig r) with e2 | t
      · have h2 : Renderer.Render eng r name raw = ("", some e2) := by
          simp [Renderer.Render, hv, hp]
        have h3 := h2.symm.trans h
        injection h3 with h4 h5
        exact h4.symm
      · rcases hx : Renderer.Execute eng r t with ⟨o, oe⟩
        rcases oe with _ | e2
        · have h2 : Renderer.Render eng r name raw = (o, none) := by
            simp [Renderer.Render, hv, hp, hx]
          have h3 := h2.symm.trans h
          injection h3 with h4 h5
          simp at h5
        · have h2 : Renderer.Render eng r name raw = ("", some e2) := by
            simp [Renderer.Render, hv, hp, hx]
          have h3 := h2.symm.trans h
          injection h3 with h4 h5
          exact h4.symm
    · have h2 : Renderer.Render eng r name raw = ("", some e2) := by
        simp [Renderer.Render, hv]
      have h3 := h2.symm.trans h
      injection h3 with h4 h5
      exact h4.symm

/-- Claim C1 witness: at a concrete engine and valid renderer all stages
succeed, and `Render` returns the executed output with no error. -/
theorem render_pipeline_witness :
    Renderer.Render sampleEngine sampleRenderer "n" "t" = ("t", none) :=
  (render_pipeline sampleEngine sampleRenderer "n" "t").2.2.2.1
    { name := "n", body := "t" } "t" (by decide) rfl rfl

/-- Claim C4: on success `Execute` returns exactly the engine's buffer
contents; on a template execution error it returns an error wrapping the
underlying `ExecError` with a context naming the template, and the modelled
missing-key lookup failure's message contains the missing key name and its
source position in the form `templateName:line:column`. -/
theorem execute_spec (eng : Engine) (r : Renderer) (t : Template) :
    (∀ buffer, eng.exec t r.configuration = (buffer, none) →
      Renderer.Execute eng r t = (buffer, none)) ∧
    (∀ buffer tn inner, eng.exec t r.configuration = (buffer, some (.execError tn inner)) →
      Renderer.Execute eng r t =
        ("", some (.wrap ("Error evaluating the template named: \x27" ++ tn ++ "\x27")
          (.execError tn inner)))) ∧
    (∀ buffer e, eng.exec t r.configuration = (buffer, some (.msg e)) →
      Renderer.Execute eng r t = ("", some (.msg e))) ∧
    (∀ tn line column key, ∃ before after,
      (missingKeyErr tn line column key).message =
        before ++ (tn ++ ":" ++ toString line ++ ":" ++ toString column) ++ after) ∧
    (∀ tn line column key, ∃ before after,
      (missingKeyErr tn line column key).message = before ++ key ++ after) := by
  refine ⟨?_, ?_, ?_, ?_, ?_⟩
  · intro buffer hx; simp [Renderer.Execute, hx]
  · intro buffer tn inner hx; simp [Renderer.Execute, hx]
  · intro buffer e hx; simp [Renderer.Execute, hx]
  · intro tn line column key
    refine ⟨"template: ", ": executing \x22" ++ tn ++ "\x22 at <." ++ key ++
      ">: map has no entry for key \x22" ++ key ++ "\x22", ?_⟩
    simp only [missingKeyErr, Err.message, String.append_assoc]
  · intro tn line column key
    refine ⟨"template: " ++ tn ++ ":" ++ toString line ++ ":" ++ toString column ++
      ": executing \x22" ++ tn ++ "\x22 at <.",
      ">: map has no entry for key \x22" ++ key ++ "\x22", ?_⟩
    simp only [missingKeyErr, Err.message, String.append_assoc]

/-- Claim C4 witness: at a concrete engine whose execution raises the
modelled missing-key failure for template `stdin` at 1:3 on key `missing`,
`Execute` returns the wrapped, template-naming error. -/
theorem execute_spec_witness :
    Renderer.Execute sampleFailEngine sampleRenderer { name := "stdin", body := "b" } =
      ("", some (.wrap ("Error evaluating the template named: \x27stdin\x27")
        (missingKeyErr "stdin" 1 3 "missing"))) :=
  (execute_spec sampleFailEngine sampleRenderer { name := "stdin", body := "b" }).2.1
    "" "stdin" (.msg ("template: " ++ "stdin" ++ ":" ++ toString 1 ++ ":" ++ toString 3 ++
      ": executing \x22" ++ "stdin" ++ "\x22 at <." ++ "missing" ++
      ">: map has no entry for key \x22" ++ "missing" ++ "\x22")) rfl

/-- Claim C7: `FileRender` renders the read text under the template name
`stdin` when the input path is empty and under the input path otherwise,
performs its write with permission bits `0644` at the given output path
carrying exactly the rendered result, and propagates read and write errors
from the file collaborator unchanged. -/
theorem fileRender_spec (eng : Engine) (fs : FileSys) (r : Renderer) (ip op : String) :
    (∀ inp e, fs.readInput ip = (inp, some e) →
      Renderer.FileRender eng fs r ip op = (some e, [])) ∧
    (∀ inp res, fs.readInput ip = (inp, none) →
      Renderer.Render eng r (if ip = "" then "stdin" else ip) inp = (res, none) →
      Renderer.FileRender eng fs r ip op =
        (fs.writeOutput op res 0o644, [(op, res, 0o644)])) ∧
    (∀ w ∈ (Renderer.FileRender eng fs r ip op).2, w.1 = op ∧ w.2.2 = 0o644) := by
  refine ⟨?_, ?_, ?_⟩
  · intro inp e hr; simp [Renderer.FileRender, hr]
  · intro inp res hr hren
    rcases hw : fs.writeOutput op res 0o644 with _ | e
    · simp [Renderer.FileRender, hr, hren, hw]
    · simp [Renderer.FileRender, hr, hren, hw]
  · intro w hw
    unfold Renderer.FileRender at hw
    rcases hr : fs.readInput ip with ⟨inp, oe⟩
    rcases oe with _ | e
    · rw [hr] at hw
      rcases hren : Renderer.Render eng r (if ip = "" then "stdin" else ip) inp with ⟨res, re⟩
      rcases re with _ | e
      · simp only [hren] at hw
        rcases hwo : fs.writeOutput op res 0o644 with _ | e
        · simp only [hwo] at hw
          simp at hw
          simp [hw]
        · simp only [hwo] at hw
          simp at hw
          simp [hw]
      · simp only [hren] at hw
        simp at hw
    · rw [hr] at hw
      simp at hw

/-- Claim C7 witness: with a concrete succeeding file system and engine,
`FileRender` performs exactly one write, at the output path, of the rendered
text, with mode `0644`. -/
theorem fileRender_spec_witness :
    Renderer.FileRender sampleEngine sampleFs sampleRenderer "in.tmpl" "out.txt" =
      (none, [("out.txt", "body", 0o644)]) :=
  (fileRender_spec sampleEngine sampleFs sampleRenderer "in.tmpl" "out.txt").2.1
    "body" "body" rfl rfl

/-- Claim C10: if reading the input fails, or rendering the read text fails,
`FileRender` returns that error and performs no `WriteOutput` call at all —
the write trace is empty on failure. -/
theorem fileRender_no_write_on_failure (eng : Engine) (fs : FileSys) (r : Renderer)
    (ip op : String) :
    (∀ inp e, fs.readInput ip = (inp, some e) →
      Renderer.FileRender eng fs r ip op = (some e, [])) ∧
    (∀ inp res e, fs.readInput ip = (inp, none) →
      Renderer.Render eng r (if ip = "" then "stdin" else ip) inp = (res, some e) →
      Renderer.FileRender eng fs r ip op = (some e, [])) := by
  refine ⟨?_, ?_⟩
  · intro inp e hr; simp [Renderer.FileRender, hr]
  · intro inp res e hr hren; simp [Renderer.FileRender, hr, hren]

/-- Claim C10 witness: with a concrete failing reader, `FileRender` returns
the read error and the write trace is empty. -/
theorem fileRender_no_write_on_failure_witness :
    Renderer.FileRender sampleEngine sampleFailFs sampleRenderer "" "out.txt" =
      (some (.msg "read failed"), []) :=
  (fileRender_no_write_on_failure sampleEngine sampleFailFs sampleRenderer "" "out.txt").1
    "" (.msg "read failed") rfl
